import Mathlib

/-!
Verification of the CAEG-EL parametric CAD repository.

The repository has two Python source files:

* `cad_library.py` — five shape builders (`create_bolt`, `create_flange`,
  `create_nut`, `create_washer`, `create_bracket`) that assemble
  SolidPython2 CSG objects, and
* `app.py` — the Streamlit application: per-family parameter branches that
  (for Flange / Nut / Washer) check a relational constraint before calling
  the builder, and `generate_stl_content`, which writes the rendered
  program to `temp.scad`, checks that the configured OpenSCAD path exists,
  runs the compiler as a subprocess and reads `temp.stl` back.

The embedding below models SolidPython2 objects as a CSG tree with exact
rational parameters (Python floats such as `0.15` and `0.1` are modelled
as the exact rationals they denote in the source text), Python exceptions
as an explicit error type, and the filesystem touched by
`generate_stl_content` as an association list of file names to contents.
-/

/-- A SolidPython2 CSG object, as produced by the builders in
`cad_library.py`:
* `cylinder r h fn` — `cylinder(r=r, h=h, _fn=fn)`;
* `cube x y z` — `cube([x, y, z])`;
* `translate x y z c` — `c.translate([x,y,z])` (also `.up`/`.down`/`.right`);
* `rotate x y z c` — `c.rotate([x, y, z])`;
* `union a b` — `a + b`;
* `difference a b` — `a - b`. -/
inductive CSGTree
  | cylinder (r h : ℚ) (fn : ℕ)
  | cube (x y z : ℚ)
  | translate (x y z : ℚ) (c : CSGTree)
  | rotate (x y z : ℚ) (c : CSGTree)
  | union (a b : CSGTree)
  | difference (a b : CSGTree)
deriving DecidableEq

/-- The Python exceptions that the two source files can raise on the
modelled paths: `FileNotFoundError` (raised explicitly in
`generate_stl_content`), `subprocess.CalledProcessError` (from
`subprocess.run(..., check=True)`) and `ZeroDivisionError` (from
`360.0 / num_holes` in `create_flange`). -/
inductive PyError
  | fileNotFoundError (msg : String)
  | calledProcessError
  | zeroDivisionError
deriving DecidableEq

deriving instance DecidableEq for Except

/-- The epsilon clearance margin used by `create_flange`, `create_nut` and
`create_washer` (`epsilon = 0.1` in `cad_library.py`). -/
def epsilon : ℚ := 1 / 10

/-- `create_bolt` from `cad_library.py`: hex head
`cylinder(r=head_radius, h=head_height, _fn=6)` unioned with the shaft
`cylinder(r=bolt_radius, h=bolt_length, _fn=100).up(head_height)`. -/
def create_bolt (head_radius head_height bolt_radius bolt_length : ℚ) : CSGTree :=
  CSGTree.union (CSGTree.cylinder head_radius head_height 6)
    (CSGTree.translate 0 0 head_height (CSGTree.cylinder bolt_radius bolt_length 100))

/-- `create_flange` from `cad_library.py`.  The function performs no
relational validation; the only failure is the `ZeroDivisionError` raised
by `angle_step = 360.0 / num_holes` when `num_holes = 0`.  Each bolt hole
is built, translated right by the bolt-circle radius and then rotated
about the z axis; the holes are subtracted in sequence from
`base - central_hole` by the `result -= h` loop.  `0.15` is modelled as
the exact rational `15 / 100` and `range(num_holes)` as
`List.range num_holes.toNat` (empty for negative `num_holes`, as in
Python). -/
def create_flange (flange_radius pipe_radius thickness : ℚ) (num_holes : ℤ) :
    Except PyError CSGTree :=
  let base := CSGTree.cylinder flange_radius thickness 100
  let central_hole := CSGTree.translate 0 0 (-epsilon)
    (CSGTree.cylinder pipe_radius (thickness + 2 * epsilon) 100)
  let bolt_circle_radius := (flange_radius + pipe_radius) / 2
  let hole_radius_raw := (flange_radius - pipe_radius) * (15 / 100)
  let hole_radius := if hole_radius_raw ≤ 0 then 1 else hole_radius_raw
  if num_holes = 0 then Except.error PyError.zeroDivisionError
  else
    let angle_step : ℚ := 360 / (num_holes : ℚ)
    let bolt_holes := (List.range num_holes.toNat).map fun i : ℕ =>
      CSGTree.rotate 0 0 ((i : ℚ) * angle_step)
        (CSGTree.translate bolt_circle_radius 0 0
          (CSGTree.translate 0 0 (-epsilon)
            (CSGTree.cylinder hole_radius (thickness + 2 * epsilon) 100)))
    Except.ok (bolt_holes.foldl CSGTree.difference (CSGTree.difference base central_hole))

/-- `create_nut` from `cad_library.py`: hex body minus an epsilon-extended
smooth bore.  No validation is performed in the function. -/
def create_nut (inner_radius outer_radius thickness : ℚ) : CSGTree :=
  CSGTree.difference (CSGTree.cylinder outer_radius thickness 6)
    (CSGTree.translate 0 0 (-epsilon)
      (CSGTree.cylinder inner_radius (thickness + 2 * epsilon) 100))

/-- `create_washer` from `cad_library.py`: smooth disk minus an
epsilon-extended smooth bore.  No validation is performed in the
function. -/
def create_washer (inner_radius outer_radius thickness : ℚ) : CSGTree :=
  CSGTree.difference (CSGTree.cylinder outer_radius thickness 100)
    (CSGTree.translate 0 0 (-epsilon)
      (CSGTree.cylinder inner_radius (thickness + 2 * epsilon) 100))

/-- `create_bracket` from `cad_library.py`: union of the base box and the
upright box, both at the origin corner. -/
def create_bracket (length width height thickness : ℚ) : CSGTree :=
  CSGTree.union (CSGTree.cube length width thickness)
    (CSGTree.cube thickness width height)

/-- Observer: does a builder call return a tree (Python: return normally)
rather than raise? -/
def returnsTree : Except PyError CSGTree → Bool
  | .ok _ => true
  | .error _ => false

/-- Outcome of one of the per-family parameter branches in `app.py`:
either the branch shows an `st.error` message and leaves `generated_obj`
as `None` (`invalidParams`), or the builder returns an object (`obj`), or
the builder raises (`raised`). -/
inductive BranchResult
  | invalidParams (msg : String)
  | obj (t : CSGTree)
  | raised (e : PyError)
deriving DecidableEq

/-- The Flange branch of `app.py` (lines 35–44): validates
`pipe_radius >= flange_radius` *before* calling `create_flange`. -/
def flange_branch (flange_radius pipe_radius thickness : ℚ) (num_holes : ℤ) :
    BranchResult :=
  if pipe_radius ≥ flange_radius then
    BranchResult.invalidParams
      "Invalid Parameters: Pipe Radius must be smaller than Flange Radius."
  else
    match create_flange flange_radius pipe_radius thickness num_holes with
    | .ok t => BranchResult.obj t
    | .error e => BranchResult.raised e

/-- The Nut branch of `app.py` (lines 46–54): validates
`inner_radius >= outer_radius` before calling `create_nut`. -/
def nut_branch (inner_radius outer_radius thickness : ℚ) : BranchResult :=
  if inner_radius ≥ outer_radius then
    BranchResult.invalidParams
      "Invalid Parameters: Inner Radius must be smaller than Outer Radius."
  else BranchResult.obj (create_nut inner_radius outer_radius thickness)

/-- The Washer branch of `app.py` (lines 56–64): validates
`inner_radius >= outer_radius` before calling `create_washer`. -/
def washer_branch (inner_radius outer_radius thickness : ℚ) : BranchResult :=
  if inner_radius ≥ outer_radius then
    BranchResult.invalidParams
      "Invalid Parameters: Inner Radius must be smaller than Outer Radius."
  else BranchResult.obj (create_washer inner_radius outer_radius thickness)

/-- Contents of a file in the modelled filesystem: text (written with
`open(..., "w")`) or bytes (the compiler's STL output, read with
`open(..., "rb")`). -/
inductive FileData
  | text (s : String)
  | bytes (b : List ℕ)
deriving DecidableEq

/-- The filesystem state touched by `generate_stl_content`: an
association list from file names to contents; a write prepends, a lookup
finds the most recent write. -/
structure FS where
  files : List (String × FileData)
deriving DecidableEq

/-- `os.path.exists`. -/
def FS.existsFile (fs : FS) (n : String) : Bool := (fs.files.lookup n).isSome

/-- `open(n, "w")` / the compiler creating its output file. -/
def FS.write (fs : FS) (n : String) (d : FileData) : FS := ⟨(n, d) :: fs.files⟩

/-- `open(n, ...).read()`. -/
def FS.readFile (fs : FS) (n : String) : Option FileData := fs.files.lookup n

/-- Behaviour of one run of the external OpenSCAD process (a black box to
the invoker): it either exits 0, having created the output file with some
bytes (`succeeds (some b)`) or not (`succeeds none`), or exits with a
non-zero status (`fails`). -/
inductive CompilerBehavior
  | succeeds (output : Option (List ℕ))
  | fails
deriving DecidableEq

/-- Result of one call to `generate_stl_content`: a normal Python return
(`ret (some d)` for the bytes of `temp.stl`, `ret none` for Python
`None`) or a raised exception (`exn`). -/
inductive InvokeOutcome
  | ret (v : Option FileData)
  | exn (e : PyError)
deriving DecidableEq

/-- `generate_stl_content` from `app.py` (lines 75–93), as a state
transition on the modelled filesystem:
1. write `scad_code` to `temp.scad` (unconditionally, before any check);
2. if `scad_path` does not exist, raise `FileNotFoundError`;
3. run the compiler with `check=True` — a non-zero exit raises
   `CalledProcessError`; an exit-0 run may or may not have created
   `temp.stl`;
4. if `temp.stl` exists return its contents, else return `None`.
No file is ever deleted on any path. -/
def generate_stl_content (scad_code scad_path : String) (fs : FS)
    (compiler : CompilerBehavior) : InvokeOutcome × FS :=
  let fs1 := fs.write "temp.scad" (FileData.text scad_code)
  if fs1.existsFile scad_path then
    match compiler with
    | .fails => (InvokeOutcome.exn PyError.calledProcessError, fs1)
    | .succeeds out =>
      let fs2 := match out with
        | some b => fs1.write "temp.stl" (FileData.bytes b)
        | none => fs1
      if fs2.existsFile "temp.stl" then
        match fs2.readFile "temp.stl" with
        | some d => (InvokeOutcome.ret (some d), fs2)
        | none => (InvokeOutcome.ret none, fs2)
      else (InvokeOutcome.ret none, fs2)
  else
    (InvokeOutcome.exn
      (PyError.fileNotFoundError
        "OpenSCAD executable not found at specified path."), fs1)

/-- The subtracted operands of a left-nested difference chain
`((base - s1) - s2) - ...`, in subtraction order.  `create_flange` builds
exactly such a chain (`base - central_hole`, then `result -= h` in a
loop); `create_nut` and `create_washer` build a one-step chain. -/
def subtractedChain : CSGTree → List CSGTree
  | .difference a b => subtractedChain a ++ [b]
  | _ => []

/-- The base solid of a left-nested difference chain. -/
def chainBase : CSGTree → CSGTree
  | .difference a _ => chainBase a
  | t => t

/-- Strip the placement wrapping (rotations about the origin and
translations with zero z component) off a subtracted solid, exposing the
inner z-shifted drill. -/
def stripPlacement : CSGTree → CSGTree
  | .rotate _ _ _ c => stripPlacement c
  | .translate x y z c => if z = 0 then stripPlacement c else .translate x y z c
  | t => t

/-- A subtracted solid that fully penetrates a base of height `h` by the
epsilon convention: a cylinder of height `h + 2 * epsilon` shifted down
by `epsilon`. -/
def IsEpsDrill (h : ℚ) (t : CSGTree) : Prop :=
  ∃ r fn, t = CSGTree.translate 0 0 (-epsilon)
    (CSGTree.cylinder r (h + 2 * epsilon) fn)

/-- The z-extent `(bottom, top)` of a (possibly translated) cylinder:
a `cylinder` spans `(0, h)` and a `translate` shifts by its z
component. -/
def zSpan : CSGTree → Option (ℚ × ℚ)
  | .cylinder _ h _ => some (0, h)
  | .translate _ _ dz c => (zSpan c).map fun ab => (ab.1 + dz, ab.2 + dz)
  | _ => none

/-- One bolt hole of the worked flange example
(`flange_radius = 50`, `pipe_radius = 20`, `thickness = 5`): bolt-circle
radius `35`, hole radius `9/2 = 4.5`. -/
def sampleHole (a : ℚ) : CSGTree :=
  CSGTree.rotate 0 0 a
    (CSGTree.translate 35 0 0
      (CSGTree.translate 0 0 (-epsilon)
        (CSGTree.cylinder (9 / 2) (5 + 2 * epsilon) 100)))

/-- The tree built by `create_flange(50, 20, 5, 6)`. -/
def flangeSample : CSGTree :=
  [sampleHole 0, sampleHole 60, sampleHole 120, sampleHole 180,
    sampleHole 240, sampleHole 300].foldl CSGTree.difference
    (CSGTree.difference (CSGTree.cylinder 50 5 100)
      (CSGTree.translate 0 0 (-epsilon)
        (CSGTree.cylinder 20 (5 + 2 * epsilon) 100)))

/-- Tokens of a rendered program.  Modelled from the spec: the Serializer
(`scad_render` of the external SolidPython2 library, not part of `src/`)
walks the CSG tree and emits one statement per node, structurally
mirroring the tree; the rendered program is modelled as the sequence of
its tokens, numeric parameters carried exactly. -/
inductive STok
  | num (q : ℚ)
  | kcylinder
  | kcube
  | ktranslate
  | krotate
  | kunion
  | kdifference
  | lbrace
  | rbrace
  | semi
deriving DecidableEq

/-- Modelled from the spec: `scad_render` (the Serializer of the external
SolidPython2 library, not part of `src/`).  It renders a CSG tree to a
program deterministically and structurally: a primitive becomes one
statement carrying its numeric parameters, a transform wraps its child,
a boolean node wraps its children in a braced block. -/
def scad_render : CSGTree → List STok
  | .cylinder r h fn => [.kcylinder, .num r, .num h, .num (fn : ℚ), .semi]
  | .cube x y z => [.kcube, .num x, .num y, .num z, .semi]
  | .translate x y z c => .ktranslate :: .num x :: .num y :: .num z :: scad_render c
  | .rotate x y z c => .krotate :: .num x :: .num y :: .num z :: scad_render c
  | .union a b => .kunion :: .lbrace :: (scad_render a ++ scad_render b ++ [.rbrace])
  | .difference a b =>
      .kdifference :: .lbrace :: (scad_render a ++ scad_render b ++ [.rbrace])

/-- Structural depth of a tree; fuel bound for `readNode`. -/
def treeDepth : CSGTree → ℕ
  | .cylinder _ _ _ => 1
  | .cube _ _ _ => 1
  | .translate _ _ _ c => treeDepth c + 1
  | .rotate _ _ _ c => treeDepth c + 1
  | .union a b => max (treeDepth a) (treeDepth b) + 1
  | .difference a b => max (treeDepth a) (treeDepth b) + 1

/-- Fuel-bounded reader of a rendered program: recovers the tree whose
rendering is a prefix of the token list, together with the remaining
tokens.  Used only to prove that `scad_render` is injective. -/
def readNode : ℕ → List STok → Option (CSGTree × List STok)
  | 0, _ => none
  | fuel + 1, toks =>
    match toks with
    | .kcylinder :: .num r :: .num h :: .num fn :: .semi :: rest =>
        some (.cylinder r h fn.num.toNat, rest)
    | .kcube :: .num x :: .num y :: .num z :: .semi :: rest =>
        some (.cube x y z, rest)
    | .ktranslate :: .num x :: .num y :: .num z :: rest =>
        match readNode fuel rest with
        | some (c, rest1) => some (.translate x y z c, rest1)
        | none => none
    | .krotate :: .num x :: .num y :: .num z :: rest =>
        match readNode fuel rest with
        | some (c, rest1) => some (.rotate x y z c, rest1)
        | none => none
    | .kunion :: .lbrace :: rest =>
        match readNode fuel rest with
        | some (a, rest1) =>
          match readNode fuel rest1 with
          | some (b, .rbrace :: rest2) => some (.union a b, rest2)
          | _ => none
        | none => none
    | .kdifference :: .lbrace :: rest =>
        match readNode fuel rest with
        | some (a, rest1) =>
          match readNode fuel rest1 with
          | some (b, .rbrace :: rest2) => some (.difference a b, rest2)
          | _ => none
        | none => none
    | _ => none

/-! ### Helper lemmas -/

theorem existsFile_write_self (fs : FS) (n : String) (d : FileData) :
    (fs.write n d).existsFile n = true := by
  simp [FS.write, FS.existsFile, List.lookup]

theorem existsFile_write_mono (fs : FS) {n : String} (m : String) (d : FileData)
    (h : fs.existsFile n = true) : (fs.write m d).existsFile n = true := by
  simp only [FS.write, FS.existsFile, List.lookup]
  cases hnm : (n == m) <;> simp only [hnm] <;> simp_all [FS.existsFile]

theorem subtractedChain_foldl (l : List CSGTree) (acc : CSGTree) :
    subtractedChain (l.foldl CSGTree.difference acc) = subtractedChain acc ++ l := by
  induction l generalizing acc with
  | nil => simp
  | cons hd tl ih => simp [List.foldl_cons, ih, subtractedChain]

theorem chainBase_foldl (l : List CSGTree) (acc : CSGTree) :
    chainBase (l.foldl CSGTree.difference acc) = chainBase acc := by
  induction l generalizing acc with
  | nil => rfl
  | cons hd tl ih => simp [List.foldl_cons, ih, chainBase]

theorem create_flange_ok (f p t : ℚ) (n : ℤ) (hn : n ≠ 0) :
    create_flange f p t n = Except.ok
      (((List.range n.toNat).map fun i : ℕ =>
        CSGTree.rotate 0 0 ((i : ℚ) * (360 / (n : ℚ)))
          (CSGTree.translate ((f + p) / 2) 0 0
            (CSGTree.translate 0 0 (-epsilon)
              (CSGTree.cylinder
                (if (f - p) * (15 / 100) ≤ 0 then 1 else (f - p) * (15 / 100))
                (t + 2 * epsilon) 100)))).foldl CSGTree.difference
        (CSGTree.difference (CSGTree.cylinder f t 100)
          (CSGTree.translate 0 0 (-epsilon)
            (CSGTree.cylinder p (t + 2 * epsilon) 100)))) := by
  simp [create_flange, hn]

/-! ### Claim theorems -/

/-- C10: `create_flange` is total exactly on `numHoles ≠ 0`: the unguarded
`360.0 / num_holes` raises `ZeroDivisionError` for `numHoles = 0` (no
structured validation failure), and for every `numHoles ≠ 0` the division
succeeds and a tree is returned. -/
theorem create_flange_total_iff_num_holes_ne_zero (f p t : ℚ) (n : ℤ) :
    (create_flange f p t n = Except.error PyError.zeroDivisionError ↔ n = 0)
    ∧ (returnsTree (create_flange f p t n) = true ↔ n ≠ 0) := by
  by_cases hn : n = 0
  · subst hn; simp [create_flange, returnsTree]
  · rw [create_flange_ok f p t n hn]; simp [returnsTree, hn]

/-- C1 counterexample: `create_flange(20, 20, 5, 6)` (with
`pipeRadius = flangeRadius`) does not fail with `InvalidParameters`: it
returns a complete CSG tree. -/
theorem create_flange_no_validation_cex :
    returnsTree (create_flange 20 20 5 6) = true := by
  rw [create_flange_ok 20 20 5 6 (by decide)]; rfl

/-- C1 amended: for `pipeRadius ≥ flangeRadius` the *application's Flange
parameter branch* reports the Invalid Parameters error and never calls
`create_flange`, so no tree is built by the pipeline; `create_flange`
itself performs no relational validation and (whenever `numHoles ≠ 0`)
returns a complete tree even for such parameters. -/
theorem flange_invalid_params_in_branch (f p t : ℚ) (n : ℤ) (h : f ≤ p) :
    flange_branch f p t n = BranchResult.invalidParams
        "Invalid Parameters: Pipe Radius must be smaller than Flange Radius."
    ∧ (n ≠ 0 → returnsTree (create_flange f p t n) = true) := by
  constructor
  · simp [flange_branch, ge_iff_le, h]
  · intro hn; rw [create_flange_ok f p t n hn]; rfl

/-- Witness for C1's amended theorem at
`flangeRadius = pipeRadius = 20`, `thickness = 5`, `numHoles = 6`. -/
theorem flange_invalid_params_in_branch_witness :
    flange_branch 20 20 5 6 = BranchResult.invalidParams
        "Invalid Parameters: Pipe Radius must be smaller than Flange Radius."
    ∧ returnsTree (create_flange 20 20 5 6) = true := by
  have h := flange_invalid_params_in_branch 20 20 5 6 (le_refl 20)
  exact ⟨h.1, h.2 (by decide)⟩

/-- C2 counterexample: `create_nut(10, 10, 5)` and `create_washer(10, 10, 5)`
(with `innerRadius = outerRadius`) do not fail with `InvalidParameters`:
each returns a complete difference tree. -/
theorem nut_washer_no_validation_cex :
    create_nut 10 10 5 = CSGTree.difference (CSGTree.cylinder 10 5 6)
        (CSGTree.translate 0 0 (-epsilon)
          (CSGTree.cylinder 10 (5 + 2 * epsilon) 100))
    ∧ create_washer 10 10 5 = CSGTree.difference (CSGTree.cylinder 10 5 100)
        (CSGTree.translate 0 0 (-epsilon)
          (CSGTree.cylinder 10 (5 + 2 * epsilon) 100)) :=
  ⟨rfl, rfl⟩

/-- C2 amended: for `innerRadius ≥ outerRadius` the application's Nut and
Washer parameter branches report the Invalid Parameters error and never
call the builders; `create_nut` and `create_washer` themselves perform no
relational validation and return complete trees for any parameters. -/
theorem nut_washer_invalid_params_in_branch (i o t : ℚ) (h : o ≤ i) :
    nut_branch i o t = BranchResult.invalidParams
        "Invalid Parameters: Inner Radius must be smaller than Outer Radius."
    ∧ washer_branch i o t = BranchResult.invalidParams
        "Invalid Parameters: Inner Radius must be smaller than Outer Radius."
    ∧ create_nut i o t = CSGTree.difference (CSGTree.cylinder o t 6)
        (CSGTree.translate 0 0 (-epsilon)
          (CSGTree.cylinder i (t + 2 * epsilon) 100))
    ∧ create_washer i o t = CSGTree.difference (CSGTree.cylinder o t 100)
        (CSGTree.translate 0 0 (-epsilon)
          (CSGTree.cylinder i (t + 2 * epsilon) 100)) := by
  refine ⟨?_, ?_, rfl, rfl⟩ <;> simp [nut_branch, washer_branch, ge_iff_le, h]

/-- Witness for C2's amended theorem at
`innerRadius = outerRadius = 10`, `thickness = 5`. -/
theorem nut_washer_invalid_params_in_branch_witness :
    nut_branch 10 10 5 = BranchResult.invalidParams
        "Invalid Parameters: Inner Radius must be smaller than Outer Radius."
    ∧ washer_branch 10 10 5 = BranchResult.invalidParams
        "Invalid Parameters: Inner Radius must be smaller than Outer Radius."
    ∧ create_nut 10 10 5 = CSGTree.difference (CSGTree.cylinder 10 5 6)
        (CSGTree.translate 0 0 (-epsilon)
          (CSGTree.cylinder 10 (5 + 2 * epsilon) 100))
    ∧ create_washer 10 10 5 = CSGTree.difference (CSGTree.cylinder 10 5 100)
        (CSGTree.translate 0 0 (-epsilon)
          (CSGTree.cylinder 10 (5 + 2 * epsilon) 100)) :=
  nut_washer_invalid_params_in_branch 10 10 5 (le_refl 10)

/-- C3 counterexample: invoking with compiler path `"openscad"` absent
from an empty filesystem raises `FileNotFoundError` (the CompilerNotFound
condition) — but the just-written `temp.scad` still exists afterwards, a
residual temporary file, refuting "leaves no residual temporary files". -/
theorem generate_stl_residual_temp_cex :
    (generate_stl_content "cube;" "openscad" ⟨[]⟩ CompilerBehavior.fails).1
        = InvokeOutcome.exn (PyError.fileNotFoundError
            "OpenSCAD executable not found at specified path.")
    ∧ ((generate_stl_content "cube;" "openscad" ⟨[]⟩
          CompilerBehavior.fails).2).existsFile "temp.scad" = true := by
  constructor <;> rfl

/-- C3 amended: for a compiler location that does not exist,
`generate_stl_content` raises `FileNotFoundError` (the CompilerNotFound
condition); however the temporary files are *not* released: on every exit
path (any path, any compiler behaviour) the serialized-program file
`temp.scad` written at the start of the call still exists afterwards. -/
theorem generate_stl_compiler_not_found_and_residual
    (code path : String) (fs : FS) (compiler : CompilerBehavior)
    (h : (fs.write "temp.scad" (FileData.text code)).existsFile path = false) :
    (generate_stl_content code path fs compiler).1
      = InvokeOutcome.exn (PyError.fileNotFoundError
          "OpenSCAD executable not found at specified path.")
    ∧ ∀ (path2 : String) (compiler2 : CompilerBehavior),
        ((generate_stl_content code path2 fs compiler2).2).existsFile
          "temp.scad" = true := by
  constructor
  · simp [generate_stl_content, h]
  · intro path2 compiler2
    have h1 := existsFile_write_self fs "temp.scad" (FileData.text code)
    cases compiler2 with
    | fails =>
        simp only [generate_stl_content]
        split <;> exact h1
    | succeeds out =>
        cases out with
        | none =>
            simp only [generate_stl_content]
            split
            · split
              · split <;> exact h1
              · exact h1
            · exact h1
        | some b =>
            have h2 := existsFile_write_mono
              (fs.write "temp.scad" (FileData.text code)) "temp.stl"
              (FileData.bytes b) h1
            simp only [generate_stl_content]
            split
            · split
              · split <;> exact h2
              · exact h2
            · exact h1

/-- Witness for C3's amended theorem: empty filesystem, path
`"openscad"`, failing compiler. -/
theorem generate_stl_compiler_not_found_and_residual_witness :
    (generate_stl_content "cube;" "openscad" ⟨[]⟩ CompilerBehavior.fails).1
      = InvokeOutcome.exn (PyError.fileNotFoundError
          "OpenSCAD executable not found at specified path.")
    ∧ ∀ (path2 : String) (compiler2 : CompilerBehavior),
        ((generate_stl_content "cube;" path2 ⟨[]⟩ compiler2).2).existsFile
          "temp.scad" = true :=
  generate_stl_compiler_not_found_and_residual "cube;" "openscad" ⟨[]⟩
    CompilerBehavior.fails (by rfl)

/-- C4 counterexample: when the external process exits with status 0 but
no `temp.stl` exists afterwards, `generate_stl_content` returns Python
`None` — a plain non-error return value — rather than failing with a
structured `EmptyOutput` error. -/
theorem generate_stl_empty_output_cex :
    (generate_stl_content "cube;" "osc" ⟨[("osc", FileData.bytes [])]⟩
        (CompilerBehavior.succeeds none)).1 = InvokeOutcome.ret none := by
  rfl

/-- C4 amended: when the external process exits with status 0 and no
output artifact exists afterwards, the invoker returns the non-error
sentinel `None` (the caller then merely shows a warning); no structured
error value is produced on this path. -/
theorem generate_stl_success_no_output_returns_none
    (code path : String) (fs : FS)
    (hpath : (fs.write "temp.scad" (FileData.text code)).existsFile path = true)
    (hstl : (fs.write "temp.scad" (FileData.text code)).existsFile
      "temp.stl" = false) :
    (generate_stl_content code path fs (CompilerBehavior.succeeds none)).1
      = InvokeOutcome.ret none := by
  simp [generate_stl_content, hpath, hstl]

/-- Witness for C4's amended theorem: filesystem holding only the
compiler executable `"osc"`, exit-0 run creating no output. -/
theorem generate_stl_success_no_output_returns_none_witness :
    (generate_stl_content "cube;" "osc" ⟨[("osc", FileData.bytes [])]⟩
        (CompilerBehavior.succeeds none)).1 = InvokeOutcome.ret none :=
  generate_stl_success_no_output_returns_none "cube;" "osc"
    ⟨[("osc", FileData.bytes [])]⟩ (by rfl) (by rfl)

/-- C8: `create_bolt` is the union of the 6-segment head cylinder of
height `headHeight` based at `z = 0` and the 100-segment shaft cylinder of
height `boltLength` translated up by exactly `headHeight`; the head spans
`(0, headHeight)` and the shaft `(headHeight, headHeight + boltLength)`
on the z axis, so they share the seam `z = headHeight` with no gap or
overlap.  At `(10, 5, 5, 30)` the shaft sub-tree is translated by `+5`. -/
theorem create_bolt_structure (hr hh br bl : ℚ) :
    create_bolt hr hh br bl =
      CSGTree.union (CSGTree.cylinder hr hh 6)
        (CSGTree.translate 0 0 hh (CSGTree.cylinder br bl 100))
    ∧ zSpan (CSGTree.cylinder hr hh 6) = some (0, hh)
    ∧ zSpan (CSGTree.translate 0 0 hh (CSGTree.cylinder br bl 100))
        = some (hh, hh + bl)
    ∧ create_bolt 10 5 5 30 =
        CSGTree.union (CSGTree.cylinder 10 5 6)
          (CSGTree.translate 0 0 5 (CSGTree.cylinder 5 30 100)) := by
  refine ⟨rfl, rfl, ?_, rfl⟩
  have h0 : zSpan (CSGTree.translate 0 0 hh (CSGTree.cylinder br bl 100))
      = some (0 + hh, bl + hh) := rfl
  rw [h0, Option.some.injEq, Prod.mk.injEq]
  constructor <;> ring

/-- `create_flange(50, 20, 5, 6)` builds exactly the worked-example tree
`flangeSample` (bolt-circle radius `35`, hole radius `9/2`). -/
theorem create_flange_sample_eq :
    create_flange 50 20 5 6 = Except.ok flangeSample := by
  rw [create_flange_ok 50 20 5 6 (by decide)]
  rw [show ((6 : ℤ).toNat) = 6 from rfl, show List.range 6 = [0, 1, 2, 3, 4, 5] from rfl]
  simp only [List.map_cons, List.map_nil, List.foldl_cons, List.foldl_nil,
    flangeSample, sampleHole, Except.ok.injEq]
  norm_num [epsilon]

/-- C6: in the tree built by `create_flange`, every bolt hole sits at
bolt-circle radius `(flangeRadius + pipeRadius) / 2` and has radius
`0.15 × (flangeRadius − pipeRadius)` with the fixed minimum `1`
substituted whenever that product is `≤ 0`; in particular
`create_flange(50, 20, 5, 6)` yields bolt-circle radius exactly `35` and
hole radius exactly `9/2 = 4.5`. -/
theorem create_flange_radii (f p t : ℚ) (n : ℤ) (hn : n ≠ 0) (T : CSGTree)
    (hT : create_flange f p t n = Except.ok T) :
    (subtractedChain T).tail =
      (List.range n.toNat).map (fun i : ℕ =>
        CSGTree.rotate 0 0 ((i : ℚ) * (360 / (n : ℚ)))
          (CSGTree.translate ((f + p) / 2) 0 0
            (CSGTree.translate 0 0 (-epsilon)
              (CSGTree.cylinder
                (if (f - p) * (15 / 100) ≤ 0 then 1 else (f - p) * (15 / 100))
                (t + 2 * epsilon) 100))))
    ∧ create_flange 50 20 5 6 = Except.ok flangeSample
    ∧ sampleHole 0 = CSGTree.rotate 0 0 0
        (CSGTree.translate 35 0 0
          (CSGTree.translate 0 0 (-epsilon)
            (CSGTree.cylinder (9 / 2) (5 + 2 * epsilon) 100))) := by
  refine ⟨?_, create_flange_sample_eq, rfl⟩
  rw [create_flange_ok f p t n hn] at hT
  injection hT with hT
  subst hT
  rw [subtractedChain_foldl]
  rfl

/-- Witness for C6 at the worked example `(50, 20, 5, 6)`. -/
theorem create_flange_radii_witness :
    (subtractedChain flangeSample).tail =
      (List.range (6 : ℤ).toNat).map (fun i : ℕ =>
        CSGTree.rotate 0 0 ((i : ℚ) * (360 / ((6 : ℤ) : ℚ)))
          (CSGTree.translate (((50 : ℚ) + 20) / 2) 0 0
            (CSGTree.translate 0 0 (-epsilon)
              (CSGTree.cylinder
                (if ((50 : ℚ) - 20) * (15 / 100) ≤ 0 then 1
                  else ((50 : ℚ) - 20) * (15 / 100))
                ((5 : ℚ) + 2 * epsilon) 100))))
    ∧ create_flange 50 20 5 6 = Except.ok flangeSample
    ∧ sampleHole 0 = CSGTree.rotate 0 0 0
        (CSGTree.translate 35 0 0
          (CSGTree.translate 0 0 (-epsilon)
            (CSGTree.cylinder (9 / 2) (5 + 2 * epsilon) 100))) :=
  create_flange_radii 50 20 5 6 (by decide) flangeSample create_flange_sample_eq

/-- C5: for valid Flange parameters (`pipeRadius < flangeRadius`,
`numHoles ≥ 1`) the tree contains exactly `numHoles` distinct subtracted
bolt-hole subtrees; hole `i` is translated out to the bolt-circle radius
first and rotated about the z axis second, by exactly
`i × (360 / numHoles)` degrees; the angles are pairwise distinct, lie in
`[0, 360)`, are spaced exactly `360 / numHoles` apart, and `numHoles`
such gaps sum to the full `360` degrees — no gap, no overlap. -/
theorem create_flange_bolt_holes (f p t : ℚ) (n : ℤ) (hfp : p < f)
    (hn : 1 ≤ n) (T : CSGTree) (hT : create_flange f p t n = Except.ok T) :
    (subtractedChain T).tail =
      (List.range n.toNat).map (fun i : ℕ =>
        CSGTree.rotate 0 0 ((i : ℚ) * (360 / (n : ℚ)))
          (CSGTree.translate ((f + p) / 2) 0 0
            (CSGTree.translate 0 0 (-epsilon)
              (CSGTree.cylinder ((f - p) * (15 / 100)) (t + 2 * epsilon) 100))))
    ∧ (subtractedChain T).tail.length = n.toNat
    ∧ (subtractedChain T).tail.Nodup
    ∧ (∀ i : ℕ, i < n.toNat →
        0 ≤ (i : ℚ) * (360 / (n : ℚ)) ∧ (i : ℚ) * (360 / (n : ℚ)) < 360)
    ∧ (∀ i : ℕ, i + 1 < n.toNat →
        ((i + 1 : ℕ) : ℚ) * (360 / (n : ℚ)) - (i : ℚ) * (360 / (n : ℚ))
          = 360 / (n : ℚ))
    ∧ (n : ℚ) * (360 / (n : ℚ)) = 360 := by
  have hn0 : n ≠ 0 := by omega
  have hnQ : (0 : ℚ) < (n : ℚ) := by exact_mod_cast (by omega : (0 : ℤ) < n)
  have hne : ((n : ℚ)) ≠ 0 := ne_of_gt hnQ
  have hrpos : (0 : ℚ) < (f - p) * (15 / 100) :=
    mul_pos (by linarith) (by norm_num)
  have hr : ¬ ((f - p) * (15 / 100) ≤ 0) := not_le.mpr hrpos
  rw [create_flange_ok f p t n hn0] at hT
  injection hT with hT
  subst hT
  rw [if_neg hr, subtractedChain_foldl]
  have hchain :
      (subtractedChain
        (CSGTree.difference (CSGTree.cylinder f t 100)
          (CSGTree.translate 0 0 (-epsilon)
            (CSGTree.cylinder p (t + 2 * epsilon) 100))) ++
        (List.range n.toNat).map (fun i : ℕ =>
          CSGTree.rotate 0 0 ((i : ℚ) * (360 / (n : ℚ)))
            (CSGTree.translate ((f + p) / 2) 0 0
              (CSGTree.translate 0 0 (-epsilon)
                (CSGTree.cylinder ((f - p) * (15 / 100))
                  (t + 2 * epsilon) 100))))).tail =
      (List.range n.toNat).map (fun i : ℕ =>
        CSGTree.rotate 0 0 ((i : ℚ) * (360 / (n : ℚ)))
          (CSGTree.translate ((f + p) / 2) 0 0
            (CSGTree.translate 0 0 (-epsilon)
              (CSGTree.cylinder ((f - p) * (15 / 100))
                (t + 2 * epsilon) 100)))) := rfl
  rw [hchain]
  have hstep : (360 / (n : ℚ)) ≠ 0 := div_ne_zero (by norm_num) hne
  refine ⟨rfl, by simp, ?_, ?_, ?_, ?_⟩
  · refine List.Nodup.map ?_ (List.nodup_range _)
    intro i j hij
    have h3 : (i : ℚ) * (360 / (n : ℚ)) = (j : ℚ) * (360 / (n : ℚ)) := by
      simpa [CSGTree.rotate.injEq] using hij
    exact_mod_cast mul_right_cancel₀ hstep h3
  · intro i hi
    have hiQ : (i : ℚ) < (n : ℚ) := by
      exact_mod_cast (by omega : (i : ℤ) < n)
    constructor
    · positivity
    · calc (i : ℚ) * (360 / (n : ℚ)) < (n : ℚ) * (360 / (n : ℚ)) :=
            mul_lt_mul_of_pos_right hiQ (by positivity)
        _ = 360 := by field_simp
  · intro i _
    push_cast
    ring
  · field_simp

/-- Witness for C5 at the worked example `(50, 20, 5, 6)`. -/
theorem create_flange_bolt_holes_witness :
    (subtractedChain flangeSample).tail =
      (List.range (6 : ℤ).toNat).map (fun i : ℕ =>
        CSGTree.rotate 0 0 ((i : ℚ) * (360 / ((6 : ℤ) : ℚ)))
          (CSGTree.translate (((50 : ℚ) + 20) / 2) 0 0
            (CSGTree.translate 0 0 (-epsilon)
              (CSGTree.cylinder (((50 : ℚ) - 20) * (15 / 100))
                ((5 : ℚ) + 2 * epsilon) 100))))
    ∧ (subtractedChain flangeSample).tail.length = (6 : ℤ).toNat
    ∧ (subtractedChain flangeSample).tail.Nodup
    ∧ (∀ i : ℕ, i < (6 : ℤ).toNat →
        0 ≤ (i : ℚ) * (360 / ((6 : ℤ) : ℚ))
          ∧ (i : ℚ) * (360 / ((6 : ℤ) : ℚ)) < 360)
    ∧ (∀ i : ℕ, i + 1 < (6 : ℤ).toNat →
        ((i + 1 : ℕ) : ℚ) * (360 / ((6 : ℤ) : ℚ))
            - (i : ℚ) * (360 / ((6 : ℤ) : ℚ)) = 360 / ((6 : ℤ) : ℚ))
    ∧ ((6 : ℤ) : ℚ) * (360 / ((6 : ℤ) : ℚ)) = 360 :=
  create_flange_bolt_holes 50 20 5 6 (by norm_num) (by decide) flangeSample
    create_flange_sample_eq

/-- C7: in the trees of `create_flange`, `create_nut` and `create_washer`
(base heights `thickness`), every subtracted solid, stripped of its
placement transforms, is a cylinder of height exactly
`thickness + 2 × epsilon` shifted down by exactly `epsilon`, for the one
fixed `epsilon = 0.1`: both faces of the base are strictly cleared. -/
theorem flange_nut_washer_eps_drills (f p t inr outr th : ℚ) (n : ℤ)
    (hn : n ≠ 0) (T : CSGTree) (hT : create_flange f p t n = Except.ok T) :
    epsilon = 1 / 10
    ∧ chainBase T = CSGTree.cylinder f t 100
    ∧ (∀ s ∈ subtractedChain T, IsEpsDrill t (stripPlacement s))
    ∧ chainBase (create_nut inr outr th) = CSGTree.cylinder outr th 6
    ∧ (∀ s ∈ subtractedChain (create_nut inr outr th),
        IsEpsDrill th (stripPlacement s))
    ∧ chainBase (create_washer inr outr th) = CSGTree.cylinder outr th 100
    ∧ (∀ s ∈ subtractedChain (create_washer inr outr th),
        IsEpsDrill th (stripPlacement s)) := by
  have heps : ¬ (-epsilon = (0 : ℚ)) := by norm_num [epsilon]
  rw [create_flange_ok f p t n hn] at hT
  injection hT with hT
  subst hT
  refine ⟨rfl, ?_, ?_, rfl, ?_, rfl, ?_⟩
  · rw [chainBase_foldl]; rfl
  · rw [subtractedChain_foldl]
    intro s hs
    rcases List.mem_cons.mp hs with rfl | hmem
    · exact ⟨p, 100, by simp [stripPlacement, heps]⟩
    · obtain ⟨i, -, rfl⟩ := List.mem_map.mp hmem
      exact ⟨if (f - p) * (15 / 100) ≤ 0 then 1 else (f - p) * (15 / 100),
        100, by simp [stripPlacement, heps]⟩
  · intro s hs
    rcases List.mem_singleton.mp hs with rfl
    exact ⟨inr, 100, by simp [stripPlacement, heps]⟩
  · intro s hs
    rcases List.mem_singleton.mp hs with rfl
    exact ⟨inr, 100, by simp [stripPlacement, heps]⟩

/-- Witness for C7 at the worked flange example and a sample nut/washer. -/
theorem flange_nut_washer_eps_drills_witness :
    epsilon = 1 / 10
    ∧ chainBase flangeSample = CSGTree.cylinder 50 5 100
    ∧ (∀ s ∈ subtractedChain flangeSample, IsEpsDrill 5 (stripPlacement s))
    ∧ chainBase (create_nut 5 10 3) = CSGTree.cylinder 10 3 6
    ∧ (∀ s ∈ subtractedChain (create_nut 5 10 3),
        IsEpsDrill 3 (stripPlacement s))
    ∧ chainBase (create_washer 5 10 3) = CSGTree.cylinder 10 3 100
    ∧ (∀ s ∈ subtractedChain (create_washer 5 10 3),
        IsEpsDrill 3 (stripPlacement s)) :=
  flange_nut_washer_eps_drills 50 20 5 5 10 3 6 (by decide) flangeSample
    create_flange_sample_eq

theorem one_le_treeDepth (t : CSGTree) : 1 ≤ treeDepth t := by
  cases t <;> simp [treeDepth]

theorem readNode_scad_render (t : CSGTree) :
    ∀ (fuel : ℕ), treeDepth t ≤ fuel →
      ∀ (rest : List STok),
        readNode fuel (scad_render t ++ rest) = some (t, rest) := by
  induction t with
  | cylinder r h fn =>
      intro fuel hfuel rest
      obtain ⟨k, rfl⟩ : ∃ k, fuel = k + 1 := by
        cases fuel with
        | zero => simp [treeDepth] at hfuel
        | succ k => exact ⟨k, rfl⟩
      simp [scad_render, readNode]
  | cube x y z =>
      intro fuel hfuel rest
      obtain ⟨k, rfl⟩ : ∃ k, fuel = k + 1 := by
        cases fuel with
        | zero => simp [treeDepth] at hfuel
        | succ k => exact ⟨k, rfl⟩
      simp [scad_render, readNode]
  | translate x y z c ih =>
      intro fuel hfuel rest
      obtain ⟨k, rfl⟩ : ∃ k, fuel = k + 1 := by
        cases fuel with
        | zero => simp [treeDepth] at hfuel
        | succ k => exact ⟨k, rfl⟩
      have hd : treeDepth c ≤ k := by
        simp only [treeDepth] at hfuel; omega
      simp [scad_render, readNode, ih k hd]
  | rotate x y z c ih =>
      intro fuel hfuel rest
      obtain ⟨k, rfl⟩ : ∃ k, fuel = k + 1 := by
        cases fuel with
        | zero => simp [treeDepth] at hfuel
        | succ k => exact ⟨k, rfl⟩
      have hd : treeDepth c ≤ k := by
        simp only [treeDepth] at hfuel; omega
      simp [scad_render, readNode, ih k hd]
  | union a b iha ihb =>
      intro fuel hfuel rest
      obtain ⟨k, rfl⟩ : ∃ k, fuel = k + 1 := by
        cases fuel with
        | zero => simp [treeDepth] at hfuel
        | succ k => exact ⟨k, rfl⟩
      have hda : treeDepth a ≤ k := by
        simp only [treeDepth] at hfuel; omega
      have hdb : treeDepth b ≤ k := by
        simp only [treeDepth] at hfuel; omega
      simp only [scad_render, List.cons_append, List.append_assoc,
        List.singleton_append]
      simp [readNode, iha k hda, ihb k hdb]
  | difference a b iha ihb =>
      intro fuel hfuel rest
      obtain ⟨k, rfl⟩ : ∃ k, fuel = k + 1 := by
        cases fuel with
        | zero => simp [treeDepth] at hfuel
        | succ k => exact ⟨k, rfl⟩
      have hda : treeDepth a ≤ k := by
        simp only [treeDepth] at hfuel; omega
      have hdb : treeDepth b ≤ k := by
        simp only [treeDepth] at hfuel; omega
      simp only [scad_render, List.cons_append, List.append_assoc,
        List.singleton_append]
      simp [readNode, iha k hda, ihb k hdb]

/-- C9: the Serializer is deterministic (a pure function of the tree: the
same tree always renders to the same program) and parameter-sensitive:
`scad_render` is injective, so any two distinct trees — in particular two
trees differing in one numeric parameter — render to different programs. -/
theorem scad_render_deterministic_injective (t1 t2 : CSGTree)
    (h : scad_render t1 = scad_render t2) :
    scad_render t1 = scad_render t1 ∧ t1 = t2 := by
  refine ⟨rfl, ?_⟩
  have h1 := readNode_scad_render t1 (max (treeDepth t1) (treeDepth t2))
    (le_max_left _ _) []
  have h2 := readNode_scad_render t2 (max (treeDepth t1) (treeDepth t2))
    (le_max_right _ _) []
  rw [h] at h1
  rw [h1] at h2
  simpa using h2

/-- Witness for C9 at a sample cylinder tree. -/
theorem scad_render_deterministic_injective_witness :
    scad_render (CSGTree.cylinder 1 2 6) = scad_render (CSGTree.cylinder 1 2 6)
    ∧ CSGTree.cylinder 1 2 6 = CSGTree.cylinder 1 2 6 :=
  scad_render_deterministic_injective (CSGTree.cylinder 1 2 6)
    (CSGTree.cylinder 1 2 6) rfl
